import Mathlib

/-!
Shallow embedding of AlphaVSS-0.8,
`AlphaVSS/Src/Exceptions/VssTransactionThawTimeoutException.cpp`: the leaf
exception class `VssTransactionThawTimeoutException`, together with the parts
of its base class `VssException` that the file delegates to.  The base class
is an external collaborator not present in the provided sources; where its
behaviour decides a property, the corresponding definition is modelled from
the specification and marked as such.
-/

namespace AlphaVss

/-- Modelled from the spec: the numeric value of the platform fallback code
`E_UNEXPECTED` comes from the platform headers, which are not part of the
repository sources; only its symbolic identity matters for the properties. -/
def E_UNEXPECTED : Int := 0x8000FFFF

/-- Modelled from the spec: the native value of the transaction-thaw-timeout
result code, defined by the platform VSS headers on Vista/Win2008-or-later
build targets; the headers are not part of the repository sources. -/
def VSS_E_TRANSACTION_THAW_TIMEOUT_native : Int := 0x80042425

/-- Modelled from the spec: the build-target identifier for the
Vista/Win2008 platform class, defined in the AlphaVSS configuration headers
that are not part of the provided sources.  The properties depend only on the
order comparison `ALPHAVSS_TARGET < ALPHAVSS_TARGET_WIN2008`. -/
def ALPHAVSS_TARGET_WIN2008 : Nat := 0x0600

/-- The value the token `VSS_E_TRANSACTION_THAW_TIMEOUT` resolves to for a
given build target: the preprocessor conditional at the top of the source
file redefines it to `E_UNEXPECTED` when
`ALPHAVSS_TARGET < ALPHAVSS_TARGET_WIN2008`, otherwise the native platform
value applies.  The substitution is a function of the build target alone,
mirroring that it is resolved once at preprocessing time and not per call. -/
def VSS_E_TRANSACTION_THAW_TIMEOUT (target : Nat) : Int :=
  if target < ALPHAVSS_TARGET_WIN2008 then E_UNEXPECTED
  else VSS_E_TRANSACTION_THAW_TIMEOUT_native

/-- Modelled from the spec: the nominal type (class identity) of a managed
exception object.  The error taxonomy is a closed set of leaf classes, each a
distinct nominal type; `vssRebootRequiredException` is the sibling variant
named by the trailing preprocessor line of the source file, and
`vssBadStateException` stands for a further sibling of the taxonomy. -/
inductive ExnTag where
  | vssTransactionThawTimeoutException
  | vssRebootRequiredException
  | vssBadStateException

/-- Modelled from the spec: a managed exception object as the base class
`VssException` carries it, with its nominal type, its result code, its
message (`none` models a null reference) and its optional inner cause. -/
inductive Exn where
  | mk (tag : ExnTag) (code : Int) (message : Option String) (cause : Option Exn)

/-- The nominal type of an exception instance. -/
def Exn.tag : Exn → ExnTag
  | .mk t _ _ _ => t

/-- The stored result code of an exception instance. -/
def Exn.code : Exn → Int
  | .mk _ c _ _ => c

/-- The stored message of an exception instance (`none` models null). -/
def Exn.message : Exn → Option String
  | .mk _ _ m _ => m

/-- The stored inner cause of an exception instance, when present. -/
def Exn.cause : Exn → Option Exn
  | .mk _ _ _ c => c

/-- Modelled from the spec: the `(code, message)` constructor of the base
class `VssException` (not in the provided sources) stores the given result
code and message, with no cause. -/
def VssException.ofCodeMessage (tag : ExnTag) (code : Int)
    (message : Option String) : Exn :=
  .mk tag code message none

/-- Modelled from the spec: the `(message, innerException)` constructor of
the base class `VssException` (not in the provided sources).  Per the
specification, on this path the fixed result code determined by the concrete
class identity is still enforced by the base regardless of what code the
cause carried; the class-determined code is the `fixedCode` argument.  The
cause reference is retained unchanged. -/
def VssException.ofMessageCause (tag : ExnTag) (fixedCode : Int)
    (message : Option String) (cause : Option Exn) : Exn :=
  .mk tag fixedCode message cause

/-- Modelled from the spec: the serialized-state container used on the
reconstruction path; it persists the code and the message of an exception
instance. -/
structure SerializationInfo where
  code : Int
  message : Option String

/-- Modelled from the spec: the streaming-context token of the reconstruction
path; it carries no data relevant to this unit. -/
structure StreamingContext where

/-- Modelled from the spec: serialization of an exception instance into a
`SerializationInfo` container (the base class's serialization support, not in
the provided sources): the code and the message are persisted. -/
def Exn.getObjectData (e : Exn) : SerializationInfo :=
  ⟨e.code, e.message⟩

/-- Modelled from the spec: the `(info, context)` reconstruction constructor
of the base class `VssException` (not in the provided sources); it produces
an instance equivalent to the one originally serialized, with the fixed code
semantics of the concrete class re-asserted by the base (the
class-determined code is the `fixedCode` argument) and the persisted message
restored. -/
def VssException.ofSerialization (tag : ExnTag) (fixedCode : Int)
    (info : SerializationInfo) (context : StreamingContext) : Exn :=
  .mk tag fixedCode info.message none

namespace VssTransactionThawTimeoutException

/-- Default constructor `VssTransactionThawTimeoutException()`: delegates to
`VssException(VSS_E_TRANSACTION_THAW_TIMEOUT, L"The system was unable to thaw
the Distributed Transaction Coordinator (DTC) or the Kernel Transaction
Manager (KTM).")`. -/
def mkDefault (target : Nat) : Exn :=
  VssException.ofCodeMessage .vssTransactionThawTimeoutException
    (VSS_E_TRANSACTION_THAW_TIMEOUT target)
    (some ("The system was unable to thaw the Distributed Transaction Coordinator (DTC) or the Kernel Transaction Manager (KTM)."))

/-- Constructor `VssTransactionThawTimeoutException(String^ message)`:
delegates to `VssException(VSS_E_TRANSACTION_THAW_TIMEOUT, message)`. -/
def mkMessage (target : Nat) (message : Option String) : Exn :=
  VssException.ofCodeMessage .vssTransactionThawTimeoutException
    (VSS_E_TRANSACTION_THAW_TIMEOUT target) message

/-- Constructor `VssTransactionThawTimeoutException(String^ message,
Exception^ innerException)`: delegates to
`VssException(message, innerException)`; the fixed code of the class is
enforced by the base (see `VssException.ofMessageCause`). -/
def mkMessageCause (target : Nat) (message : Option String)
    (cause : Option Exn) : Exn :=
  VssException.ofMessageCause .vssTransactionThawTimeoutException
    (VSS_E_TRANSACTION_THAW_TIMEOUT target) message cause

/-- Constructor `VssTransactionThawTimeoutException(SerializationInfo^ info,
StreamingContext context)`: delegates to `VssException(info, context)`; the
fixed code semantics of the class are re-asserted by the base (see
`VssException.ofSerialization`). -/
def mkSerialization (target : Nat) (info : SerializationInfo)
    (context : StreamingContext) : Exn :=
  VssException.ofSerialization .vssTransactionThawTimeoutException
    (VSS_E_TRANSACTION_THAW_TIMEOUT target) info context

end VssTransactionThawTimeoutException

/-- Modelled from the spec: the closed taxonomy binds each sibling leaf class
to one fixed native result code; a sibling instance carries its class tag and
its class's fixed code.  The sibling classes are not in the provided
sources; their concrete code values are immaterial to the properties. -/
def fixedCodeOfTag (target : Nat) : ExnTag → Int
  | .vssTransactionThawTimeoutException => VSS_E_TRANSACTION_THAW_TIMEOUT target
  | .vssRebootRequiredException => 0x80042423
  | .vssBadStateException => 0x80042301

/-- Modelled from the spec: construction of an instance of a sibling leaf
class of the taxonomy, carrying the class tag and the class's fixed code. -/
def siblingInstance (target : Nat) (tag : ExnTag) (message : Option String) : Exn :=
  VssException.ofCodeMessage tag (fixedCodeOfTag target tag) message

/-- Modelled from the spec: the operations the unit exposes on a constructed
instance are the inherited read accessors for code, message and cause; the
unit defines no mutating member. -/
inductive ObserverOp where
  | getCode
  | getMessage
  | getCause

/-- Modelled from the spec: the value returned by one accessor call. -/
inductive ObsResult where
  | codeVal (c : Int)
  | messageVal (m : Option String)
  | causeVal (c : Option Exn)

/-- Modelled from the spec: one accessor call on an instance returns the
stored attribute value, paired with the instance as it is after the call;
reading an attribute does not write to the object. -/
def runObserver (e : Exn) : ObserverOp → Exn × ObsResult
  | .getCode => (e, .codeVal e.code)
  | .getMessage => (e, .messageVal e.message)
  | .getCause => (e, .causeVal e.cause)

/-- A sequence of accessor calls threaded through the instance state,
collecting the observed values. -/
def runObservers (e : Exn) : List ObserverOp → Exn × List ObsResult
  | [] => (e, [])
  | op :: rest =>
    let r := runObserver e op
    let rs := runObservers r.fst rest
    (rs.fst, r.snd :: rs.snd)

end AlphaVss

namespace AlphaVss

open VssTransactionThawTimeoutException

/-- Claim C1: on every one of the four construction paths (default,
message-only, message plus cause, reconstruction), the code of the resulting
instance equals the one fixed transaction-thaw-timeout constant of the build
target (the native value or its platform fallback), never a caller-influenced
value; in particular, on the message-plus-cause path the fixed code holds for
every cause, whatever code the cause carried. -/
theorem thaw_code_fixed_all_paths (target : Nat) (m : Option String)
    (c : Option Exn) (info : SerializationInfo) (ctx : StreamingContext) :
    (mkDefault target).code = VSS_E_TRANSACTION_THAW_TIMEOUT target ∧
    (mkMessage target m).code = VSS_E_TRANSACTION_THAW_TIMEOUT target ∧
    (mkMessageCause target m c).code = VSS_E_TRANSACTION_THAW_TIMEOUT target ∧
    (mkSerialization target info ctx).code = VSS_E_TRANSACTION_THAW_TIMEOUT target :=
  ⟨rfl, rfl, rfl, rfl⟩

/-- Claim C2: on build targets older than the Vista/Win2008 class, the code
constant that every constructor uses resolves to the well-defined fallback
`E_UNEXPECTED`; the substitution is a function of the build target alone, so
it is fixed once per build configuration and depends on no per-call input. -/
theorem thaw_code_fallback_pre_win2008 (target : Nat)
    (h : target < ALPHAVSS_TARGET_WIN2008) (m : Option String)
    (c : Option Exn) (info : SerializationInfo) (ctx : StreamingContext) :
    VSS_E_TRANSACTION_THAW_TIMEOUT target = E_UNEXPECTED ∧
    (mkDefault target).code = E_UNEXPECTED ∧
    (mkMessage target m).code = E_UNEXPECTED ∧
    (mkMessageCause target m c).code = E_UNEXPECTED ∧
    (mkSerialization target info ctx).code = E_UNEXPECTED := by
  have hc : VSS_E_TRANSACTION_THAW_TIMEOUT target = E_UNEXPECTED := by
    simp [VSS_E_TRANSACTION_THAW_TIMEOUT, h]
  exact ⟨hc, hc, hc, hc, hc⟩

/-- Witness for claim C2 at build target 0 (older than the Win2008 class). -/
theorem thaw_code_fallback_pre_win2008_witness :
    VSS_E_TRANSACTION_THAW_TIMEOUT 0 = E_UNEXPECTED ∧
    (mkDefault 0).code = E_UNEXPECTED ∧
    (mkMessage 0 none).code = E_UNEXPECTED ∧
    (mkMessageCause 0 none none).code = E_UNEXPECTED ∧
    (mkSerialization 0 ⟨0, none⟩ ⟨⟩).code = E_UNEXPECTED :=
  thaw_code_fallback_pre_win2008 0 (by decide) none none ⟨0, none⟩ ⟨⟩

/-- Claim C3: serializing a default-constructed instance and reconstructing
it through the deserialization constructor yields an instance whose code and
message are identical to those of the original instance. -/
theorem thaw_serialization_roundtrip (target : Nat) (ctx : StreamingContext) :
    (mkSerialization target (mkDefault target).getObjectData ctx).code
      = (mkDefault target).code ∧
    (mkSerialization target (mkDefault target).getObjectData ctx).message
      = (mkDefault target).message :=
  ⟨rfl, rfl⟩

/-- Claim C4: for every message `m` and every previously-raised error `c`,
the message-plus-cause constructor yields an instance whose cause reference
is exactly `c` (retained unchanged for later inspection) and whose message is
exactly `m`. -/
theorem thaw_message_cause_retained (target : Nat) (m : Option String)
    (c : Exn) :
    (mkMessageCause target m (some c)).cause = some c ∧
    (mkMessageCause target m (some c)).message = m :=
  ⟨rfl, rfl⟩

/-- Claim C5: default construction yields an instance whose message is
exactly the fixed descriptive text of the source and whose code is the fixed
constant of the build target. -/
theorem thaw_default_message_and_code (target : Nat) :
    (mkDefault target).message
      = some ("The system was unable to thaw the Distributed Transaction Coordinator (DTC) or the Kernel Transaction Manager (KTM).") ∧
    (mkDefault target).code = VSS_E_TRANSACTION_THAW_TIMEOUT target :=
  ⟨rfl, rfl⟩

/-- Claim C6: for every message `m` (the empty text included), the
message-only constructor yields an instance whose message is exactly `m`,
discarding the default message, and whose code equals the code of a
default-constructed instance. -/
theorem thaw_message_only (target : Nat) (m : Option String) :
    (mkMessage target m).message = m ∧
    (mkMessage target m).code = (mkDefault target).code :=
  ⟨rfl, rfl⟩

/-- Claim C7: construction never fails on any of the four paths: for every
input (the message may be null or empty, the cause and the serialization
context may be null), each constructor produces an instance of the class. -/
theorem thaw_construction_total (target : Nat) (m : Option String)
    (c : Option Exn) (info : SerializationInfo) (ctx : StreamingContext) :
    (∃ e, mkDefault target = e ∧ e.tag = ExnTag.vssTransactionThawTimeoutException) ∧
    (∃ e, mkMessage target m = e ∧ e.tag = ExnTag.vssTransactionThawTimeoutException) ∧
    (∃ e, mkMessageCause target m c = e ∧ e.tag = ExnTag.vssTransactionThawTimeoutException) ∧
    (∃ e, mkSerialization target info ctx = e ∧ e.tag = ExnTag.vssTransactionThawTimeoutException) :=
  ⟨⟨_, rfl, rfl⟩, ⟨_, rfl, rfl⟩, ⟨_, rfl, rfl⟩, ⟨_, rfl, rfl⟩⟩

/-- Claim C8: an instance is immutable after construction: every sequence of
the operations the unit exposes on an instance (the inherited read accessors)
leaves the instance unchanged, and construction on the message-plus-cause
path has no effect beyond producing the object with the cause retained as
given. -/
theorem thaw_immutable_after_construction (e : Exn) (ops : List ObserverOp)
    (target : Nat) (m : Option String) (c : Option Exn) :
    (runObservers e ops).fst = e ∧
    (runObservers (mkMessageCause target m c) ops).fst = mkMessageCause target m c ∧
    (mkMessageCause target m c).cause = c := by
  have key : ∀ (ops : List ObserverOp) (x : Exn), (runObservers x ops).fst = x := by
    intro ops
    induction ops with
    | nil => intro x; rfl
    | cons op rest ih =>
      intro x
      cases op <;> simpa [runObservers, runObserver] using ih x
  exact ⟨key ops e, key ops _, rfl⟩

/-- Claim C9: an instance of the transaction-thaw-timeout class is
distinguishable, by its nominal type tag, from any instance of a sibling
variant of the taxonomy whose fixed code differs from the thaw-timeout
constant, on every construction path of the class. -/
theorem thaw_type_discrimination (target : Nat) (t : ExnTag)
    (h : fixedCodeOfTag target t ≠ VSS_E_TRANSACTION_THAW_TIMEOUT target)
    (m sm : Option String) (c : Option Exn) (info : SerializationInfo)
    (ctx : StreamingContext) :
    (mkDefault target).tag ≠ (siblingInstance target t sm).tag ∧
    (mkMessage target m).tag ≠ (siblingInstance target t sm).tag ∧
    (mkMessageCause target m c).tag ≠ (siblingInstance target t sm).tag ∧
    (mkSerialization target info ctx).tag ≠ (siblingInstance target t sm).tag := by
  have hne : ExnTag.vssTransactionThawTimeoutException ≠ t := by
    intro heq
    exact h (heq ▸ rfl)
  have hs : (siblingInstance target t sm).tag = t := rfl
  refine ⟨?_, ?_, ?_, ?_⟩ <;>
    simpa [hs, mkDefault, mkMessage, mkMessageCause, mkSerialization,
      VssException.ofCodeMessage, VssException.ofMessageCause,
      VssException.ofSerialization, Exn.tag] using hne

/-- Witness for claim C9: at build target `0x0600` the reboot-required
sibling carries a different fixed code, and each construction path of the
thaw-timeout class is tag-distinguishable from it. -/
theorem thaw_type_discrimination_witness :
    (mkDefault 0x0600).tag
      ≠ (siblingInstance 0x0600 ExnTag.vssRebootRequiredException none).tag ∧
    (mkMessage 0x0600 none).tag
      ≠ (siblingInstance 0x0600 ExnTag.vssRebootRequiredException none).tag ∧
    (mkMessageCause 0x0600 none none).tag
      ≠ (siblingInstance 0x0600 ExnTag.vssRebootRequiredException none).tag ∧
    (mkSerialization 0x0600 ⟨0, none⟩ ⟨⟩).tag
      ≠ (siblingInstance 0x0600 ExnTag.vssRebootRequiredException none).tag :=
  thaw_type_discrimination 0x0600 ExnTag.vssRebootRequiredException
    (by decide) none none none ⟨0, none⟩ ⟨⟩

/-- Claim C10: the default constructor is the message-only constructor
specialised to the fixed descriptive text: constructing through the
message-only path with exactly that text yields an instance whose code and
message equal those of a default-constructed instance. -/
theorem thaw_default_is_message_special_case (target : Nat) :
    (mkMessage target
        (some ("The system was unable to thaw the Distributed Transaction Coordinator (DTC) or the Kernel Transaction Manager (KTM)."))).code
      = (mkDefault target).code ∧
    (mkMessage target
        (some ("The system was unable to thaw the Distributed Transaction Coordinator (DTC) or the Kernel Transaction Manager (KTM)."))).message
      = (mkDefault target).message :=
  ⟨rfl, rfl⟩

end AlphaVss
